import Mathlib

/-!
Verification of the Parquet modular-encryption key toolkit.

Shallow embedding, in Lean 4, of the C++ sources under `cpp/src/parquet`:
`key_material.cc`, `two_level_cache_with_expiration.h`, `in_memory_kms.cc`,
`metadata.cc`, `file_reader.cc`,
`encryption/properties_driven_crypto_factory.cc` and
`internal_file_encryptor.cc`.  Pure functions are translated as Lean
functions; stateful C++ objects are translated as explicit state passing;
exceptions become `Except`/`Option` results.
-/

namespace ParquetSpec

/-! ## Association-list model of `std::map` / `std::unordered_map`

C++ maps keyed by `std::string` are embedded as association lists.
`mapFind` is `find`, `mapInsert` is `insert` (which, in C++, does NOT
overwrite an existing key - the insertion is a no-op when the key is
already present). -/

def mapFind {α : Type} (m : List (String × α)) (k : String) : Option α :=
  match m.find? (fun p => p.1 == k) with
  | some p => some p.2
  | none => none

/-- `std::unordered_map::insert` / `std::map::insert`: inserts only when the
key is absent; when the key is already present the map is unchanged. -/
def mapInsert {α : Type} (m : List (String × α)) (k : String) (v : α) :
    List (String × α) :=
  if (mapFind m k).isSome then m else (k, v) :: m

/-! ## String splitting and trimming (arrow's `SplitString` / `TrimString`)

`arrow::internal::SplitString(v, delim)` splits on every occurrence of
`delim` and keeps empty pieces: `""` gives `[""]`, `"a;"` gives
`["a", ""]`.  `TrimString` strips whitespace from both ends.  Both are
embedded structurally over the character list so that they evaluate
inside the kernel. -/

def splitCharList (delim : Char) : List Char → List (List Char)
  | [] => [[]]
  | c :: rest =>
      match splitCharList delim rest with
      | [] => [[]]
      | part :: parts =>
          if c = delim then [] :: part :: parts else (c :: part) :: parts

def SplitString (v : String) (delim : Char) : List String :=
  (splitCharList delim v.data).map String.mk

def TrimString (v : String) : String :=
  String.mk
    (((v.data.dropWhile Char.isWhitespace).reverse.dropWhile
        Char.isWhitespace).reverse)

/-! ## Key material codec (`key_material.cc`)

`KeyMaterial::CreateSerialized` builds a rapidjson document (an ordered
list of members) and serializes it; `KeyMaterial::Parse` parses a string
into a rapidjson document and reads members by name.  rapidjson's
string/document round trip is the external JSON library; the embedding
works at the document level: a JSON object is an ordered association
list of members whose values are strings or booleans (the only value
kinds the codec ever writes). -/

inductive JsonValue where
  | str (s : String)
  | bool (b : Bool)
deriving DecidableEq, Repr

abbrev JsonObject := List (String × JsonValue)

/-- Member lookup, `document[field]`. -/
def jsonGet (doc : JsonObject) (field : String) : Option JsonValue :=
  match doc.find? (fun p => p.1 == field) with
  | some p => some p.2
  | none => none

/-- `document[field].GetString()`; `none` models rapidjson's failure on a
missing member or a member of the wrong type. -/
def jsonGetString (doc : JsonObject) (field : String) : Option String :=
  match jsonGet doc field with
  | some (.str s) => some s
  | _ => none

/-- `document[field].GetBool()`. -/
def jsonGetBool (doc : JsonObject) (field : String) : Option Bool :=
  match jsonGet doc field with
  | some (.bool b) => some b
  | _ => none

/- JSON field names, from `KeyMaterial` (declared in `key_material.h`;
the values are fixed by the spec's list of key-material field names). -/

def KEY_MATERIAL_TYPE_FIELD : String := "keyMaterialType"
def KEY_MATERIAL_TYPE1 : String := "PKMT1"
def IS_FOOTER_KEY_FIELD : String := "isFooterKey"
def DOUBLE_WRAPPING_FIELD : String := "doubleWrapping"
def KMS_INSTANCE_ID_FIELD : String := "kmsInstanceID"
def KMS_INSTANCE_URL_FIELD : String := "kmsInstanceURL"
def MASTER_KEY_ID_FIELD : String := "masterKeyID"
def WRAPPED_DEK_FIELD : String := "wrappedDEK"
def KEK_ID_FIELD : String := "keyEncryptionKeyID"
def WRAPPED_KEK_FIELD : String := "wrappedKEK"
def KEY_MATERIAL_INTERNAL_STORAGE_FIELD : String := "internalStorage"

structure KeyMaterial where
  is_footer_key : Bool
  kms_instance_id : String
  kms_instance_url : String
  master_key_id : String
  is_double_wrapped : Bool
  kek_id : String
  encoded_wrapped_kek : String
  encoded_wrapped_dek : String
deriving DecidableEq, Repr

/-- `KeyMaterial::Parse(const rapidjson::Document&)`: reads the fields
common to internal and external key material.  Fields that are read only
in one mode default to the empty string, exactly as the local
`std::string` variables in the C++ do. -/
def KeyMaterial.parseDocument (doc : JsonObject) : Option KeyMaterial := do
  let is_footer_key ← jsonGetBool doc IS_FOOTER_KEY_FIELD
  let kms_instance_id ←
    if is_footer_key then jsonGetString doc KMS_INSTANCE_ID_FIELD else pure ""
  let kms_instance_url ←
    if is_footer_key then jsonGetString doc KMS_INSTANCE_URL_FIELD else pure ""
  let master_key_id ← jsonGetString doc MASTER_KEY_ID_FIELD
  let encoded_wrapped_dek ← jsonGetString doc WRAPPED_DEK_FIELD
  let is_double_wrapped ← jsonGetBool doc DOUBLE_WRAPPING_FIELD
  let kek_id ←
    if is_double_wrapped then jsonGetString doc KEK_ID_FIELD else pure ""
  let encoded_wrapped_kek ←
    if is_double_wrapped then jsonGetString doc WRAPPED_KEK_FIELD else pure ""
  return { is_footer_key := is_footer_key, kms_instance_id := kms_instance_id,
           kms_instance_url := kms_instance_url, master_key_id := master_key_id,
           is_double_wrapped := is_double_wrapped, kek_id := kek_id,
           encoded_wrapped_kek := encoded_wrapped_kek,
           encoded_wrapped_dek := encoded_wrapped_dek }

/-- `KeyMaterial::Parse(const std::string&)`: check the key-material type,
then parse the remaining fields.  `none` models the thrown
`ParquetException`. -/
def KeyMaterial.parse (doc : JsonObject) : Option KeyMaterial := do
  let key_material_type ← jsonGetString doc KEY_MATERIAL_TYPE_FIELD
  if key_material_type = KEY_MATERIAL_TYPE1 then
    KeyMaterial.parseDocument doc
  else
    none

/-- `KeyMaterial::CreateSerialized`: build the JSON object member by
member, in the order the C++ adds them. -/
def KeyMaterial.createSerialized (is_footer_key : Bool)
    (kms_instance_id kms_instance_url master_key_id : String)
    (is_double_wrapped : Bool)
    (kek_id encoded_wrapped_kek encoded_wrapped_dek : String)
    (is_internal_storage : Bool) : JsonObject :=
  [(KEY_MATERIAL_TYPE_FIELD, .str KEY_MATERIAL_TYPE1)]
    ++ (if is_internal_storage then
          [(KEY_MATERIAL_INTERNAL_STORAGE_FIELD, .bool true)]
        else [])
    ++ [(IS_FOOTER_KEY_FIELD, .bool is_footer_key)]
    ++ (if is_footer_key then
          [(KMS_INSTANCE_ID_FIELD, .str kms_instance_id),
           (KMS_INSTANCE_URL_FIELD, .str kms_instance_url)]
        else [])
    ++ [(MASTER_KEY_ID_FIELD, .str master_key_id),
        (WRAPPED_DEK_FIELD, .str encoded_wrapped_dek),
        (DOUBLE_WRAPPING_FIELD, .bool is_double_wrapped)]
    ++ (if is_double_wrapped then
          [(KEK_ID_FIELD, .str kek_id),
           (WRAPPED_KEK_FIELD, .str encoded_wrapped_kek)]
        else [])

/-! ## Two-level cache with expiration (`two_level_cache_with_expiration.h`)

`TwoLevelCacheWithExpiration<V>` wraps
`std::unordered_map<std::string, ExpiringCacheEntry<std::unordered_map<std::string, V>>>`.
Time is explicit: every operation that reads the clock takes `now`
(milliseconds) as an argument. -/

/-- `internal::ExpiringCacheEntry<map<string,V>>` (declared in
`key_toolkit_internal.h`, whose implementation is not among the sources).
Modelled from the spec: each external entry is a map plus an
`expiration_timestamp`; the entry is created with
`expiration = now + lifetime` and is expired once `now` passes it. -/
structure ExpiringCacheEntry (V : Type) where
  cached_item : List (String × V)
  expiration_timestamp : Nat
deriving DecidableEq, Repr

/-- `ExpiringCacheEntry::IsExpired()`. -/
def ExpiringCacheEntry.isExpired {V : Type} (e : ExpiringCacheEntry V)
    (now : Nat) : Bool :=
  e.expiration_timestamp < now

structure TwoLevelCacheWithExpiration (V : Type) where
  cache : List (String × ExpiringCacheEntry V)
deriving DecidableEq, Repr

/-- `TwoLevelCacheWithExpiration::GetOrCreateInternalCache`.  Returns the
updated cache together with the internal map that
`cache_[access_token].cached_item()` returns.  Note the C++ uses
`cache_.insert({access_token, ...})`, which does not overwrite an entry
that is already present (`mapInsert`); `cache_[access_token]` then reads
whatever entry is present (the `.getD` default stands for
`operator[]`'s value-initialized entry, reachable only when the key is
absent). -/
def getOrCreateInternalCache {V : Type} (c : TwoLevelCacheWithExpiration V)
    (now : Nat) (access_token : String) (cache_entry_lifetime_ms : Nat) :
    TwoLevelCacheWithExpiration V × List (String × V) :=
  let cache1 :=
    match mapFind c.cache access_token with
    | none =>
        mapInsert c.cache access_token ⟨[], now + cache_entry_lifetime_ms⟩
    | some external_cache_entry =>
        if external_cache_entry.isExpired now then
          mapInsert c.cache access_token ⟨[], now + cache_entry_lifetime_ms⟩
        else
          c.cache
  (⟨cache1⟩, ((mapFind cache1 access_token).getD ⟨[], 0⟩).cached_item)

/-! ## In-memory KMS (`in_memory_kms.cc`, the key-rotation variant)

`InMemoryKms` keeps two static maps from master-key identifier to master
key: `master_key_map_` and `new_master_key_map_`.  The maps are embedded
as instance state; the `ParseKeyList` conversion from "id:base64" input
strings is input decoding (arrow's base64) and is elided - the
operations below take the already-parsed maps. -/

/-- Modelled from the spec: `KeyToolkit::EncryptKeyLocally`
(`key_toolkit.cc` is not among the sources) AES-GCM-encrypts `key` with
`master_key` and the given `aad`; the wrapped result determines, and can
only be decrypted with, that key and AAD. -/
structure LocallyWrappedKey where
  key : String
  master_key : String
  aad : String
deriving DecidableEq, Repr

def EncryptKeyLocally (key master_key aad : String) : LocallyWrappedKey :=
  ⟨key, master_key, aad⟩

/-- Modelled from the spec: `KeyToolkit::DecryptKeyLocally` AES-GCM
decryption; the GCM tag check fails (`none`) unless the master key and
AAD match the ones used to wrap. -/
def DecryptKeyLocally (w : LocallyWrappedKey) (master_key aad : String) :
    Option String :=
  if w.master_key = master_key ∧ w.aad = aad then some w.key else none

structure InMemoryKms where
  master_key_map : List (String × String)
  new_master_key_map : List (String × String)
deriving DecidableEq, Repr

/-- `InMemoryKms::InitializeMasterKey`: sets both maps. -/
def InMemoryKms.initializeMasterKey (master_keys : List (String × String)) :
    InMemoryKms :=
  { master_key_map := master_keys, new_master_key_map := master_keys }

/-- `InMemoryKms::StartKeyRotation`: stages the new map. -/
def InMemoryKms.startKeyRotation (s : InMemoryKms)
    (new_master_keys : List (String × String)) : InMemoryKms :=
  { s with new_master_key_map := new_master_keys }

/-- `InMemoryKms::FinishKeyRotation`: `master_key_map_ = new_master_key_map_`. -/
def InMemoryKms.finishKeyRotation (s : InMemoryKms) : InMemoryKms :=
  { s with master_key_map := s.new_master_key_map }

inductive KmsError where
  /-- `ParquetException("Key not found: " + master_key_identifier)`. -/
  | keyNotFound (master_key_identifier : String)
  /-- `std::out_of_range` thrown by an unchecked `std::map::at`. -/
  | outOfRange
  /-- local AES-GCM unwrap failed (tag mismatch). -/
  | decryptionFailed
deriving DecidableEq, Repr

/-- `InMemoryKms::WrapKeyInServer`: "Always use the latest key version
for writing" - looks up `new_master_key_map_` and wraps with AAD =
master key identifier. -/
def InMemoryKms.wrapKeyInServer (s : InMemoryKms) (key_bytes : String)
    (master_key_identifier : String) : Except KmsError LocallyWrappedKey :=
  match mapFind s.new_master_key_map master_key_identifier with
  | none => .error (.keyNotFound master_key_identifier)
  | some master_key =>
      .ok (EncryptKeyLocally key_bytes master_key master_key_identifier)

/-- `InMemoryKms::UnwrapKeyInServer`: looks up `new_master_key_map_` and
decrypts with AAD = master key identifier. -/
def InMemoryKms.unwrapKeyInServer (s : InMemoryKms)
    (wrapped_key : LocallyWrappedKey) (master_key_identifier : String) :
    Except KmsError String :=
  match mapFind s.new_master_key_map master_key_identifier with
  | none => .error (.keyNotFound master_key_identifier)
  | some master_key =>
      match DecryptKeyLocally wrapped_key master_key master_key_identifier with
      | some key => .ok key
      | none => .error .decryptionFailed

/-- `InMemoryKms::GetMasterKeyFromServer`: "Always return the latest key
version" - an unchecked `new_master_key_map_.at(...)`, so a missing
identifier surfaces as `std::out_of_range`, not as the
"Key not found" `ParquetException`. -/
def InMemoryKms.getMasterKeyFromServer (s : InMemoryKms)
    (master_key_identifier : String) : Except KmsError String :=
  match mapFind s.new_master_key_map master_key_identifier with
  | none => .error .outOfRange
  | some master_key => .ok master_key

/-! ## Signed plaintext-footer verification (`metadata.cc`, `file_reader.cc`)

Bytes are `List Nat`.  The AES primitive
`parquet_encryption::SignedFooterEncrypt` (`util/crypto.cc` is not among
the sources) is passed in as a function from (plaintext, nonce) to the
framed ciphertext; the footer key and footer AAD of the C++ call are
fixed inside it. -/

/-- The last `n` bytes of a buffer (what
`memcmp(buf + len - 16, tag, 16)` inspects). -/
def listLastN (n : Nat) (l : List Nat) : List Nat :=
  l.drop (l.length - n)

/-- `FileMetaData::FileMetaDataImpl::verify`: re-serialize the footer
(`serialized_footer` stands for the serializer's output), split the
28-byte `tail` into `nonce = tail[0..12)` and `tag = tail[12..28)`,
encrypt with the recorded nonce, and compare only the last 16 bytes of
the ciphertext against the stored tag. -/
def FileMetaData.verify
    (signedFooterEncrypt : List Nat → List Nat → List Nat)
    (serialized_footer tail : List Nat) : Bool :=
  let nonce := tail.take 12
  let tag := (tail.drop 12).take 16
  let encrypted_buffer := signedFooterEncrypt serialized_footer nonce
  decide (encrypted_buffer.drop (encrypted_buffer.length - 16) = tag)

/-- The signed-plaintext branch of `SerializedFile::ParseMetaData`
(`file_reader.cc`): when footer-integrity checking is requested, the
bytes after the Thrift block (`metadata_len - read_metadata_len`) must
be exactly 28, and then `FileMetaData::verify` must accept; footer-key
retrieval is modelled separately (`getFooterKeyForRead`). -/
def parseSignedPlaintextFooterCheck
    (signedFooterEncrypt : List Nat → List Nat → List Nat)
    (check_footer_integrity : Bool)
    (serialized_footer : List Nat)
    (metadata_len read_metadata_len : Nat)
    (tail : List Nat) : Except String Unit :=
  if check_footer_integrity then
    if metadata_len - read_metadata_len ≠ 28 then
      .error "Invalid parquet file. Cannot verify plaintext mode footer."
    else if FileMetaData.verify signedFooterEncrypt serialized_footer tail then
      .ok ()
    else
      .error "Invalid parquet file. Could not verify plaintext footer metadata"
  else
    .ok ()

/-! ## Key retrieval at the column and footer scopes (`file_reader.cc`)

A `DecryptionKeyRetriever::GetKey` call either returns key bytes or
throws; `KeyAccessDeniedException` is the error the KMS layer raises on
an authorization failure, and any other exception is `other`. -/

inductive KeyRetrievalError where
  | keyAccessDenied (msg : String)
  | other (msg : String)
deriving DecidableEq, Repr

inductive ReaderError where
  /-- `HiddenColumnException`: the column is skipped, not the file. -/
  | hiddenColumn (msg : String)
  /-- `ParquetException`: propagates to the top-level file operation. -/
  | parquetError (msg : String)
deriving DecidableEq, Repr

/-- The column-key retrieval of `SerializedRowGroup::GetColumnPageReader`
for a column encrypted with its own key: first the per-file column map,
then the explicit key from the decryption properties, then the key
retriever; a `KeyAccessDeniedException` from the retriever is caught and
re-thrown as `HiddenColumnException`, and an empty final key is also a
`HiddenColumnException`. -/
def getColumnKeyForRead
    (column_map : Option (List (String × String)))
    (column_path : String)
    (explicit_column_key : String)
    (column_key_metadata : String)
    (key_retriever : Option (String → Except KeyRetrievalError String)) :
    Except ReaderError String :=
  let cached : Option String :=
    match column_map with
    | some m => mapFind m column_path
    | none => none
  let keyResult : Except ReaderError String :=
    match cached with
    | some k => .ok k
    | none =>
        if explicit_column_key = "" ∧ column_key_metadata ≠ "" ∧
            key_retriever.isSome then
          match key_retriever with
          | some retriever =>
              match retriever column_key_metadata with
              | .ok k => .ok k
              | .error (.keyAccessDenied msg) =>
                  .error (.hiddenColumn
                    ("HiddenColumnException, path=" ++ column_path ++ " "
                      ++ msg ++ "\n"))
              | .error (.other msg) => .error (.parquetError msg)
          | none => .ok explicit_column_key
        else
          .ok explicit_column_key
  match keyResult with
  | .error e => .error e
  | .ok column_key =>
      if column_key = "" then
        .error (.hiddenColumn
          ("column is encrypted with null key, path=" ++ column_path))
      else
        .ok column_key

/-- The footer-key retrieval of `SerializedFile::ParseMetaData` (same
shape in the signed-plaintext and the encrypted-footer branches): a
`KeyAccessDeniedException` from the retriever is re-thrown as a plain
`ParquetException` - a top-level file error, not a hidden column. -/
def getFooterKeyForRead
    (explicit_footer_key : String)
    (footer_key_metadata : String)
    (key_retriever : Option (String → Except KeyRetrievalError String)) :
    Except ReaderError String :=
  let step : Except ReaderError String :=
    if explicit_footer_key = "" then
      if footer_key_metadata = "" then
        .error (.parquetError "No footer key or key metadata")
      else
        match key_retriever with
        | none => .error (.parquetError "No footer key or key retriever")
        | some retriever =>
            match retriever footer_key_metadata with
            | .ok k => .ok k
            | .error (.keyAccessDenied msg) =>
                .error (.parquetError ("Footer key: access denied " ++ msg ++ "\n"))
            | .error (.other msg) => .error (.parquetError msg)
    else
      .ok explicit_footer_key
  match step with
  | .error e => .error e
  | .ok footer_key =>
      if footer_key = "" then
        .error (.parquetError
          "Footer key unavailable. Could not verify plaintext footer metadata")
      else
        .ok footer_key

/-! ## Properties-driven crypto factory
(`encryption/properties_driven_crypto_factory.cc`)

The random DEK generation (`RandBytes`) and the KMS key wrapping
(`FileKeyWrapper::GetEncryptionKeyMetadata`) are external effects with no
bearing on the configuration-parsing logic; the embedded
`encrypted_columns` map therefore records, per column name, the column
key id it was configured with. -/

inductive ParquetCipher where
  | AES_GCM_V1
  | AES_GCM_CTR_V1
deriving DecidableEq, Repr

structure EncryptionConfiguration where
  footer_key : String
  column_keys : String
  encryption_algorithm : ParquetCipher
  plaintext_footer : Bool
  double_wrapping : Bool
  cache_lifetime_seconds : Nat
  internal_key_material : Bool
  uniform_encryption : Bool
  data_key_length_bits : Int
deriving DecidableEq, Repr

structure FileEncryptionProperties where
  footer_key_id : String
  algorithm : ParquetCipher
  encrypted_columns : Option (List (String × String))
  plaintext_footer : Bool
deriving DecidableEq, Repr

/-- The inner loop of
`PropertiesDrivenCryptoFactory::GetColumnEncryptionProperties` over the
trimmed column names of one `key:col1,col2,...` mapping; `acc` is the
`encrypted_columns` map built so far. -/
def processColumnNames (column_key_id : String) (column_names : List String)
    (acc : List (String × String)) :
    Except String (List (String × String)) :=
  match column_names with
  | [] => .ok acc
  | n :: rest =>
      let column_name := TrimString n
      if column_name = "" then
        .error ("Empty column name in column keys property for key: "
          ++ column_key_id)
      else if (mapFind acc column_name).isSome then
        .error ("Multiple keys defined for the same column: " ++ column_name)
      else
        processColumnNames column_key_id rest (acc ++ [(column_name, column_key_id)])

/-- The outer loop of
`PropertiesDrivenCryptoFactory::GetColumnEncryptionProperties` over the
';'-separated `key_to_columns` segments. -/
def processKeyToColumns (key_to_columns : List String)
    (acc : List (String × String)) :
    Except String (List (String × String)) :=
  match key_to_columns with
  | [] => .ok acc
  | seg :: rest =>
      let cur_key_to_columns := TrimString seg
      if cur_key_to_columns = "" then
        processKeyToColumns rest acc
      else
        match SplitString cur_key_to_columns ':' with
        | [p0, p1] =>
            let column_key_id := TrimString p0
            if column_key_id = "" then
              .error "Empty key name in column keys property."
            else
              let column_names_str := TrimString p1
              let column_names := SplitString column_names_str ','
              if column_names.length = 0 then
                .error ("No columns to encrypt defined for key: " ++ column_key_id)
              else
                match processColumnNames column_key_id column_names acc with
                | .error e => .error e
                | .ok acc2 => processKeyToColumns rest acc2
        | _ =>
            .error ("Incorrect key to columns mapping in column keys property: ["
              ++ cur_key_to_columns ++ "]")

/-- `PropertiesDrivenCryptoFactory::GetColumnEncryptionProperties`.  -/
def getColumnEncryptionProperties (column_keys : String) :
    Except String (List (String × String)) :=
  match processKeyToColumns (SplitString column_keys ';') [] with
  | .error e => .error e
  | .ok encrypted_columns =>
      if encrypted_columns.isEmpty then
        .error "No column keys configured in column keys property."
      else
        .ok encrypted_columns

/-- Modelled from the spec: `internal::ValidateKeyLength`
(`key_toolkit_internal.cc` is not among the sources); 128/192/256 bits
are the only accepted data-key lengths. -/
def ValidateKeyLength (key_length_bits : Int) : Bool :=
  key_length_bits = 128 ∨ key_length_bits = 192 ∨ key_length_bits = 256

/-- `PropertiesDrivenCryptoFactory::GetFileEncryptionProperties`, with
the checks in source order: column_keys/uniform_encryption exclusivity,
external key-material store, data-key length validation, then (for
non-uniform encryption) the column-key parsing and the plaintext-footer
flag. -/
def getFileEncryptionProperties (encryption_config : EncryptionConfiguration) :
    Except String FileEncryptionProperties :=
  if ¬encryption_config.uniform_encryption ∧ encryption_config.column_keys = "" then
    .error "Either column_keys or uniform_encryption must be set"
  else if encryption_config.uniform_encryption ∧
      encryption_config.column_keys ≠ "" then
    .error "Cannot set both column_keys and uniform_encryption"
  else if ¬encryption_config.internal_key_material then
    .error "External key material store is not supported yet."
  else if ¬ValidateKeyLength encryption_config.data_key_length_bits then
    .error ("Wrong data key length : " ++ toString encryption_config.data_key_length_bits)
  else if ¬encryption_config.uniform_encryption then
    match getColumnEncryptionProperties encryption_config.column_keys with
    | .error e => .error e
    | .ok encrypted_columns =>
        .ok { footer_key_id := encryption_config.footer_key,
              algorithm := encryption_config.encryption_algorithm,
              encrypted_columns := some encrypted_columns,
              plaintext_footer := encryption_config.plaintext_footer }
  else
    .ok { footer_key_id := encryption_config.footer_key,
          algorithm := encryption_config.encryption_algorithm,
          encrypted_columns := none,
          plaintext_footer := false }

/-! ## Internal file encryptor (`internal_file_encryptor.cc`)

`InternalFileEncryptor` caches one `AesEncryptor` per key length for
metadata modules and one per key length for data modules. -/

structure AesEncryptor where
  algorithm : ParquetCipher
  key_length : Nat
  metadata : Bool
deriving DecidableEq, Repr

structure InternalFileEncryptor where
  meta_encryptor_128 : Option AesEncryptor := none
  meta_encryptor_196 : Option AesEncryptor := none
  meta_encryptor_256 : Option AesEncryptor := none
  data_encryptor_128 : Option AesEncryptor := none
  data_encryptor_196 : Option AesEncryptor := none
  data_encryptor_256 : Option AesEncryptor := none
deriving DecidableEq, Repr

/-- `InternalFileEncryptor::GetMetaAesEncryptor`: hand out (and lazily
create) the cached metadata-module encryptor for the key length; any key
length other than 16, 24 or 32 bytes throws. -/
def getMetaAesEncryptor (st : InternalFileEncryptor)
    (algorithm : ParquetCipher) (key_size : Nat) :
    Except String (InternalFileEncryptor × AesEncryptor) :=
  let key_len := key_size
  if key_len = 16 then
    match st.meta_encryptor_128 with
    | none =>
        let e : AesEncryptor := ⟨algorithm, key_len, true⟩
        .ok ({ st with meta_encryptor_128 := some e }, e)
    | some e => .ok (st, e)
  else if key_len = 24 then
    match st.meta_encryptor_196 with
    | none =>
        let e : AesEncryptor := ⟨algorithm, key_len, true⟩
        .ok ({ st with meta_encryptor_196 := some e }, e)
    | some e => .ok (st, e)
  else if key_len = 32 then
    match st.meta_encryptor_256 with
    | none =>
        let e : AesEncryptor := ⟨algorithm, key_len, true⟩
        .ok ({ st with meta_encryptor_256 := some e }, e)
    | some e => .ok (st, e)
  else
    .error "encryption key must be 16, 24 or 32 bytes in length"

/-- `InternalFileEncryptor::GetDataAesEncryptor`: same for data modules. -/
def getDataAesEncryptor (st : InternalFileEncryptor)
    (algorithm : ParquetCipher) (key_size : Nat) :
    Except String (InternalFileEncryptor × AesEncryptor) :=
  let key_len := key_size
  if key_len = 16 then
    match st.data_encryptor_128 with
    | none =>
        let e : AesEncryptor := ⟨algorithm, key_len, false⟩
        .ok ({ st with data_encryptor_128 := some e }, e)
    | some e => .ok (st, e)
  else if key_len = 24 then
    match st.data_encryptor_196 with
    | none =>
        let e : AesEncryptor := ⟨algorithm, key_len, false⟩
        .ok ({ st with data_encryptor_196 := some e }, e)
    | some e => .ok (st, e)
  else if key_len = 32 then
    match st.data_encryptor_256 with
    | none =>
        let e : AesEncryptor := ⟨algorithm, key_len, false⟩
        .ok ({ st with data_encryptor_256 := some e }, e)
    | some e => .ok (st, e)
  else
    .error "encryption key must be 16, 24 or 32 bytes in length"

/-! ## Column-chunk serialization (`ColumnChunkMetaDataBuilder::WriteTo`
in `metadata.cc`)

The Thrift structures are embedded with an explicit `isset` flag per
optional field, as Thrift's generated C++ keeps them: a field is written
to the sink iff its `isset` flag is true, with whatever value the field
currently holds (a default-constructed value when the flag was set
without `__set_...`). -/

/-- `format::ColumnMetaData`, reduced to the parts the writer touches:
the two redactable optional fields and an opaque core for the rest. -/
structure ColumnMetaData where
  isset_statistics : Bool
  isset_encoding_stats : Bool
  core : Nat
deriving DecidableEq, Repr, Inhabited

/-- The value a default-constructed `format::ColumnMetaData` holds. -/
def defaultColumnMetaData : ColumnMetaData :=
  { isset_statistics := false, isset_encoding_stats := false, core := 0 }

inductive ColumnCryptoMetaData where
  | encryptionWithFooterKey
  | encryptionWithColumnKey (key_metadata : String) (path_in_schema : List String)
deriving DecidableEq, Repr

/-- The `format::ColumnChunk` fields the writer sets.  `meta_data` always
holds a value (Thrift keeps the field inline); `isset_meta_data` says
whether it is serialized. -/
structure ColumnChunk where
  isset_meta_data : Bool
  meta_data : ColumnMetaData
  crypto_metadata : Option ColumnCryptoMetaData
  encrypted_column_metadata : Option (List Nat)
deriving DecidableEq, Repr

/-- `ColumnChunkMetaDataBuilder::WriteTo` (the `ColumnChunk` it
serializes).  `encrypt` stands for Thrift-serializing `column_metadata_`
and encrypting it with the chunk's encryptor;
`footer_is_encrypted` is `properties_->footer_encryption() != nullptr`. -/
def columnChunkWriteTo
    (column_metadata : ColumnMetaData)
    (is_encrypted : Bool)
    (is_encrypted_with_footer_key : Bool)
    (footer_is_encrypted : Bool)
    (key_metadata : String)
    (path_in_schema : List String)
    (encrypt : ColumnMetaData → List Nat) : ColumnChunk :=
  if ¬is_encrypted then
    -- column is unencrypted
    { isset_meta_data := true, meta_data := column_metadata,
      crypto_metadata := none, encrypted_column_metadata := none }
  else
    let ccmd : ColumnCryptoMetaData :=
      if is_encrypted_with_footer_key then
        .encryptionWithFooterKey
      else
        .encryptionWithColumnKey key_metadata path_in_schema
    -- non-uniform: footer is unencrypted, or column is encrypted with a
    -- column-specific key
    if (¬footer_is_encrypted ∧ is_encrypted) ∨ ¬is_encrypted_with_footer_key then
      let encrypted_column_metadata := encrypt column_metadata
      if ¬footer_is_encrypted then
        -- keep redacted metadata version for old readers
        let metadata_redacted : ColumnMetaData :=
          { column_metadata with isset_statistics := false,
                                 isset_encoding_stats := false }
        { isset_meta_data := true, meta_data := metadata_redacted,
          crypto_metadata := some ccmd,
          encrypted_column_metadata := some encrypted_column_metadata }
      else
        -- the source sets `__isset.meta_data = true` here but does not
        -- populate `meta_data` ("don't set meta_data"), so the serialized
        -- chunk carries a default-constructed `meta_data` field
        { isset_meta_data := true, meta_data := defaultColumnMetaData,
          crypto_metadata := some ccmd,
          encrypted_column_metadata := some encrypted_column_metadata }
    else
      { isset_meta_data := true, meta_data := column_metadata,
        crypto_metadata := some ccmd, encrypted_column_metadata := none }

/-! ## Auxiliary notions used by the theorems -/

/-- The trimmed column names one nonempty, well-shaped
`key:col1,col2,...` segment declares (used to state when "a column name
appears under more than one key" on the raw `column_keys` string). -/
def segmentColumnNames (seg : String) : List String :=
  match SplitString (TrimString seg) ':' with
  | [_, p1] => (SplitString (TrimString p1) ',').map (fun n => TrimString n)
  | _ => []

/-- All trimmed column names declared by a `column_keys` segment list
(empty-after-trim segments declare nothing). -/
def declaredColumns (key_to_columns : List String) : List String :=
  key_to_columns.foldr
    (fun seg acc =>
      if TrimString seg = "" then acc else segmentColumnNames seg ++ acc)
    []

/-- Does a (nonempty, two-part) `column_keys` segment declare an empty
key name or an empty column name after trimming? -/
def segmentHasEmptyName (seg : String) : Bool :=
  match SplitString (TrimString seg) ':' with
  | [p0, p1] =>
      (TrimString p0 == "") ||
        (SplitString (TrimString p1) ',').any (fun n => TrimString n == "")
  | _ => false

/-! # Theorems -/

/-! ## Helper lemmas -/

theorem mapFind_eq_none_iff {α : Type} (m : List (String × α)) (k : String) :
    mapFind m k = none ↔ k ∉ m.map Prod.fst := by
  induction m with
  | nil => simp [mapFind]
  | cons p rest ih =>
      by_cases hp : p.1 = k
      · subst hp
        simp [mapFind, List.find?_cons]
      · unfold mapFind at ih ⊢
        rw [List.find?_cons]
        have hbeq : (p.1 == k) = false := by
          simp [hp]
        rw [hbeq]
        simp only [List.map_cons, List.mem_cons]
        rw [ih]
        constructor
        · intro hnot hcon
          rcases hcon with hcon | hcon
          · exact hp hcon.symm
          · exact hnot hcon
        · intro hnot hcon
          exact hnot (Or.inr hcon)

theorem declaredColumns_cons (seg : String) (rest : List String) :
    declaredColumns (seg :: rest) =
      if TrimString seg = "" then declaredColumns rest
      else segmentColumnNames seg ++ declaredColumns rest := rfl

theorem processColumnNames_ok {column_key_id : String}
    {column_names : List String} {acc out : List (String × String)}
    (h : processColumnNames column_key_id column_names acc = .ok out) :
    (∀ n ∈ column_names, TrimString n ≠ "") ∧
    out.map Prod.fst =
      acc.map Prod.fst ++ column_names.map (fun n => TrimString n) ∧
    ((acc.map Prod.fst).Nodup → (out.map Prod.fst).Nodup) := by
  induction column_names generalizing acc with
  | nil =>
      simp only [processColumnNames] at h
      cases h
      simp
  | cons n rest ih =>
      simp only [processColumnNames] at h
      by_cases h1 : TrimString n = ""
      · rw [if_pos h1] at h
        cases h
      · rw [if_neg h1] at h
        by_cases h2 : (mapFind acc (TrimString n)).isSome
        · rw [if_pos h2] at h
          cases h
        · rw [if_neg h2] at h
          obtain ⟨ha, hb, hc⟩ := ih h
          have hnotin : TrimString n ∉ acc.map Prod.fst := by
            rw [← mapFind_eq_none_iff]
            exact Option.not_isSome_iff_eq_none.mp h2
          refine ⟨?_, ?_, ?_⟩
          · intro m hm
            rcases List.mem_cons.mp hm with rfl | hm
            · exact h1
            · exact ha m hm
          · rw [hb]
            simp
          · intro hnd
            apply hc
            simp only [List.map_append, List.map_cons, List.map_nil]
            rw [List.nodup_append]
            refine ⟨hnd, List.nodup_singleton _, ?_⟩
            intro x hx hx2
            simp only [List.mem_singleton] at hx2
            subst hx2
            exact hnotin hx

theorem processKeyToColumns_ok {key_to_columns : List String}
    {acc out : List (String × String)}
    (h : processKeyToColumns key_to_columns acc = .ok out) :
    (∀ seg ∈ key_to_columns, TrimString seg ≠ "" →
      ∃ p0 p1, SplitString (TrimString seg) ':' = [p0, p1] ∧
        TrimString p0 ≠ "" ∧
        ∀ n ∈ SplitString (TrimString p1) ',', TrimString n ≠ "") ∧
    out.map Prod.fst = acc.map Prod.fst ++ declaredColumns key_to_columns ∧
    ((acc.map Prod.fst).Nodup → (out.map Prod.fst).Nodup) := by
  induction key_to_columns generalizing acc with
  | nil =>
      simp only [processKeyToColumns] at h
      cases h
      simp [declaredColumns]
  | cons seg rest ih =>
      simp only [processKeyToColumns] at h
      by_cases h1 : TrimString seg = ""
      · rw [if_pos h1] at h
        obtain ⟨ha, hb, hc⟩ := ih h
        refine ⟨?_, ?_, hc⟩
        · intro s hs hne
          rcases List.mem_cons.mp hs with rfl | hs
          · exact absurd h1 hne
          · exact ha s hs hne
        · rw [declaredColumns_cons, if_pos h1]
          exact hb
      · rw [if_neg h1] at h
        cases hsplit : SplitString (TrimString seg) ':' with
        | nil =>
            rw [hsplit] at h
            cases h
        | cons p0 tl =>
            cases tl with
            | nil =>
                rw [hsplit] at h
                cases h
            | cons p1 tl2 =>
                cases tl2 with
                | cons p2 tl3 =>
                    rw [hsplit] at h
                    cases h
                | nil =>
                    rw [hsplit] at h
                    dsimp only at h
                    by_cases hk : TrimString p0 = ""
                    · rw [if_pos hk] at h
                      cases h
                    · rw [if_neg hk] at h
                      by_cases hlen :
                          (SplitString (TrimString p1) ',').length = 0
                      · rw [if_pos hlen] at h
                        cases h
                      · rw [if_neg hlen] at h
                        cases hpc : processColumnNames (TrimString p0)
                            (SplitString (TrimString p1) ',') acc with
                        | error e =>
                            rw [hpc] at h
                            cases h
                        | ok acc2 =>
                            rw [hpc] at h
                            obtain ⟨pa, pb, pc⟩ := processColumnNames_ok hpc
                            obtain ⟨ha, hb, hc⟩ := ih h
                            refine ⟨?_, ?_, ?_⟩
                            · intro s hs hne
                              rcases List.mem_cons.mp hs with rfl | hs
                              · exact ⟨p0, p1, hsplit, hk, pa⟩
                              · exact ha s hs hne
                            · rw [declaredColumns_cons, if_neg h1]
                              unfold segmentColumnNames
                              rw [hsplit]
                              rw [hb, pb]
                              simp
                            · intro hnd
                              exact hc (pc hnd)

theorem processKeyToColumns_filter (key_to_columns : List String)
    (acc : List (String × String)) :
    processKeyToColumns key_to_columns acc =
      processKeyToColumns
        (key_to_columns.filter (fun seg => !(TrimString seg == ""))) acc := by
  induction key_to_columns generalizing acc with
  | nil => rfl
  | cons seg rest ih =>
      by_cases h1 : TrimString seg = ""
      · rw [List.filter_cons]
        have : (!(TrimString seg == "")) = false := by
          simp [h1]
        rw [this]
        simp only [Bool.false_eq_true, if_false]
        simp only [processKeyToColumns]
        rw [if_pos h1]
        exact ih acc
      · rw [List.filter_cons]
        have : (!(TrimString seg == "")) = true := by
          simp [h1]
        rw [this]
        simp only [if_true]
        simp only [processKeyToColumns]
        rw [if_neg h1, if_neg h1]
        cases SplitString (TrimString seg) ':' with
        | nil => rfl
        | cons p0 tl =>
            cases tl with
            | nil => rfl
            | cons p1 tl2 =>
                cases tl2 with
                | cons p2 tl3 => rfl
                | nil =>
                    dsimp only
                    by_cases hk : TrimString p0 = ""
                    · rw [if_pos hk, if_pos hk]
                    · rw [if_neg hk, if_neg hk]
                      by_cases hlen :
                          (SplitString (TrimString p1) ',').length = 0
                      · rw [if_pos hlen, if_pos hlen]
                      · rw [if_neg hlen, if_neg hlen]
                        cases processColumnNames (TrimString p0)
                            (SplitString (TrimString p1) ',') acc with
                        | error e => rfl
                        | ok acc2 => exact ih acc2

/-- C1: for every well-formed `KeyMaterial` value `x` (the footer-only
fields are empty unless `is_footer_key` and the KEK fields are empty
unless `is_double_wrapped`), parsing the document produced by
`KeyMaterial::CreateSerialized` for `x` (with either internal-storage
setting) yields a `KeyMaterial` equal to `x` in all eight fields. -/
theorem keyMaterial_roundtrip (x : KeyMaterial) (is_internal_storage : Bool)
    (hfooter : x.is_footer_key = false →
      x.kms_instance_id = "" ∧ x.kms_instance_url = "")
    (hkek : x.is_double_wrapped = false →
      x.kek_id = "" ∧ x.encoded_wrapped_kek = "") :
    KeyMaterial.parse
      (KeyMaterial.createSerialized x.is_footer_key x.kms_instance_id
        x.kms_instance_url x.master_key_id x.is_double_wrapped x.kek_id
        x.encoded_wrapped_kek x.encoded_wrapped_dek is_internal_storage) =
      some x := by
  obtain ⟨fk, kid, kurl, mk, dw, kek, wkek, wdek⟩ := x
  cases fk with
  | false =>
      obtain ⟨h1, h2⟩ := hfooter rfl
      subst h1; subst h2
      cases dw with
      | false =>
          obtain ⟨h3, h4⟩ := hkek rfl
          subst h3; subst h4
          cases is_internal_storage <;> rfl
      | true => cases is_internal_storage <;> rfl
  | true =>
      cases dw with
      | false =>
          obtain ⟨h3, h4⟩ := hkek rfl
          subst h3; subst h4
          cases is_internal_storage <;> rfl
      | true => cases is_internal_storage <;> rfl

/-- C1 witness: a concrete single-wrapped, non-footer key material
round-trips. -/
theorem keyMaterial_roundtrip_witness :
    KeyMaterial.parse
      (KeyMaterial.createSerialized false "" "" "mk" false "" "" "wdek" true) =
      some { is_footer_key := false, kms_instance_id := "",
             kms_instance_url := "", master_key_id := "mk",
             is_double_wrapped := false, kek_id := "",
             encoded_wrapped_kek := "", encoded_wrapped_dek := "wdek" } :=
  keyMaterial_roundtrip
    { is_footer_key := false, kms_instance_id := "", kms_instance_url := "",
      master_key_id := "mk", is_double_wrapped := false, kek_id := "",
      encoded_wrapped_kek := "", encoded_wrapped_dek := "wdek" } true
    (fun _ => ⟨rfl, rfl⟩) (fun _ => ⟨rfl, rfl⟩)

/-- C2 (code-bug evidence): `GetOrCreateInternalCache` on a token whose
external entry exists but has expired (expiration 10, now 20) returns
the PREVIOUS contents of the expired entry, because
`std::unordered_map::insert` does not overwrite the entry that is
already present; only the absent-token case returns a fresh empty map. -/
theorem cache_expired_entry_returns_stale_contents :
    (getOrCreateInternalCache (V := Nat)
        ⟨[("t", ⟨[("k", 5)], 10⟩)]⟩ 20 "t" 100).2 = [("k", 5)] ∧
    (getOrCreateInternalCache (V := Nat) ⟨[]⟩ 20 "t" 100).2 = [] :=
  ⟨rfl, rfl⟩

/-- C3 counterexample: a key wrapped before `StartKeyRotation` (under
master key "A" for id "k") fails to unwrap between `StartKeyRotation`
(which stages "k" ↦ "B") and `FinishKeyRotation`, because
`UnwrapKeyInServer` reads the staged `new_master_key_map_`. -/
theorem inMemoryKms_rotation_counterexample :
    (InMemoryKms.initializeMasterKey [("k", "A")]).wrapKeyInServer "dek" "k" =
      .ok (EncryptKeyLocally "dek" "A" "k") ∧
    ((InMemoryKms.initializeMasterKey [("k", "A")]).startKeyRotation
        [("k", "B")]).unwrapKeyInServer (EncryptKeyLocally "dek" "A" "k") "k" =
      .error .decryptionFailed :=
  ⟨rfl, rfl⟩

/-- C3 (amended): between `StartKeyRotation` and `FinishKeyRotation`,
`WrapKeyInServer` uses the staged map, and `UnwrapKeyInServer` also uses
the staged map, so a key wrapped before `StartKeyRotation` unwraps
successfully iff the staged map still holds the same master key for its
identifier; `FinishKeyRotation` changes neither operation (both already
read `new_master_key_map_`). -/
theorem inMemoryKms_rotation (init new_master_keys : List (String × String))
    (dek master_key_identifier master_key : String)
    (hinit : mapFind init master_key_identifier = some master_key) :
    ((InMemoryKms.initializeMasterKey init).wrapKeyInServer dek
        master_key_identifier =
      .ok (EncryptKeyLocally dek master_key master_key_identifier)) ∧
    (∀ dek2 id2,
      ((InMemoryKms.initializeMasterKey init).startKeyRotation
          new_master_keys).wrapKeyInServer dek2 id2 =
        (InMemoryKms.initializeMasterKey new_master_keys).wrapKeyInServer
          dek2 id2) ∧
    (((InMemoryKms.initializeMasterKey init).startKeyRotation
          new_master_keys).unwrapKeyInServer
        (EncryptKeyLocally dek master_key master_key_identifier)
        master_key_identifier = .ok dek ↔
      mapFind new_master_keys master_key_identifier = some master_key) ∧
    (∀ w id2,
      (((InMemoryKms.initializeMasterKey init).startKeyRotation
          new_master_keys).finishKeyRotation).unwrapKeyInServer w id2 =
        ((InMemoryKms.initializeMasterKey init).startKeyRotation
          new_master_keys).unwrapKeyInServer w id2) ∧
    (∀ dek2 id2,
      (((InMemoryKms.initializeMasterKey init).startKeyRotation
          new_master_keys).finishKeyRotation).wrapKeyInServer dek2 id2 =
        ((InMemoryKms.initializeMasterKey init).startKeyRotation
          new_master_keys).wrapKeyInServer dek2 id2) := by
  refine ⟨?_, fun dek2 id2 => rfl, ?_, fun w id2 => rfl, fun dek2 id2 => rfl⟩
  · unfold InMemoryKms.wrapKeyInServer InMemoryKms.initializeMasterKey
    simp [hinit]
  · cases h2 : mapFind new_master_keys master_key_identifier with
    | none =>
        unfold InMemoryKms.unwrapKeyInServer InMemoryKms.startKeyRotation
          InMemoryKms.initializeMasterKey
        simp [h2]
    | some mk2 =>
        unfold InMemoryKms.unwrapKeyInServer InMemoryKms.startKeyRotation
          InMemoryKms.initializeMasterKey
        by_cases hmk : master_key = mk2
        · subst hmk
          simp [h2, DecryptKeyLocally, EncryptKeyLocally]
        · simp [h2, DecryptKeyLocally, EncryptKeyLocally, hmk, Ne.symm hmk]

/-- C3 witness: a rotation that stages the same master key for "k"
keeps prior-wrapped keys unwrappable, and finish changes nothing. -/
theorem inMemoryKms_rotation_witness :
    mapFind [("k", "A")] "k" = some "A" ∧
    (((InMemoryKms.initializeMasterKey [("k", "A")]).wrapKeyInServer "dek" "k" =
        .ok (EncryptKeyLocally "dek" "A" "k")) ∧
     (∀ dek2 id2,
       ((InMemoryKms.initializeMasterKey [("k", "A")]).startKeyRotation
           [("k", "A")]).wrapKeyInServer dek2 id2 =
         (InMemoryKms.initializeMasterKey [("k", "A")]).wrapKeyInServer
           dek2 id2) ∧
     (((InMemoryKms.initializeMasterKey [("k", "A")]).startKeyRotation
           [("k", "A")]).unwrapKeyInServer
         (EncryptKeyLocally "dek" "A" "k") "k" = .ok "dek" ↔
       mapFind [("k", "A")] "k" = some "A") ∧
     (∀ w id2,
       (((InMemoryKms.initializeMasterKey [("k", "A")]).startKeyRotation
           [("k", "A")]).finishKeyRotation).unwrapKeyInServer w id2 =
         ((InMemoryKms.initializeMasterKey [("k", "A")]).startKeyRotation
           [("k", "A")]).unwrapKeyInServer w id2) ∧
     (∀ dek2 id2,
       (((InMemoryKms.initializeMasterKey [("k", "A")]).startKeyRotation
           [("k", "A")]).finishKeyRotation).wrapKeyInServer dek2 id2 =
         ((InMemoryKms.initializeMasterKey [("k", "A")]).startKeyRotation
           [("k", "A")]).wrapKeyInServer dek2 id2)) :=
  ⟨rfl, inMemoryKms_rotation [("k", "A")] [("k", "A")] "dek" "k" "A" rfl⟩

/-- C10: for a master-key identifier absent from the (latest) in-memory
map, `WrapKeyInServer` and `UnwrapKeyInServer` fail with the
"Key not found" error, while `GetMasterKeyFromServer` does an unchecked
`std::map::at` and so surfaces a different error (`std::out_of_range`),
not the key-not-found one. -/
theorem inMemoryKms_missing_key (s : InMemoryKms) (key_bytes : String)
    (wrapped : LocallyWrappedKey) (master_key_identifier : String)
    (h : mapFind s.new_master_key_map master_key_identifier = none) :
    s.wrapKeyInServer key_bytes master_key_identifier =
      .error (.keyNotFound master_key_identifier) ∧
    s.unwrapKeyInServer wrapped master_key_identifier =
      .error (.keyNotFound master_key_identifier) ∧
    s.getMasterKeyFromServer master_key_identifier = .error .outOfRange ∧
    KmsError.outOfRange ≠ KmsError.keyNotFound master_key_identifier := by
  refine ⟨?_, ?_, ?_, by intro hcon; cases hcon⟩
  · unfold InMemoryKms.wrapKeyInServer
    simp [h]
  · unfold InMemoryKms.unwrapKeyInServer
    simp [h]
  · unfold InMemoryKms.getMasterKeyFromServer
    simp [h]

/-- C10 witness at the empty KMS and identifier "missing". -/
theorem inMemoryKms_missing_key_witness :
    mapFind (InMemoryKms.new_master_key_map ⟨[], []⟩) "missing" = none ∧
    ((InMemoryKms.wrapKeyInServer ⟨[], []⟩ "kb" "missing" =
        .error (.keyNotFound "missing")) ∧
     (InMemoryKms.unwrapKeyInServer ⟨[], []⟩ ⟨"a", "b", "c"⟩ "missing" =
        .error (.keyNotFound "missing")) ∧
     (InMemoryKms.getMasterKeyFromServer ⟨[], []⟩ "missing" =
        .error .outOfRange) ∧
     KmsError.outOfRange ≠ KmsError.keyNotFound "missing") :=
  ⟨rfl, inMemoryKms_missing_key ⟨[], []⟩ "kb" ⟨"a", "b", "c"⟩ "missing" rfl⟩

/-- C4: `FileMetaData::verify` on a signed-plaintext footer accepts iff
encrypting the re-serialized footer with the 12-byte nonce recorded in
the 28-byte trailer yields a buffer whose last 16 bytes equal the stored
16-byte tag; and the reader (when checking footer integrity) rejects the
file whenever the trailer after the Thrift block is not exactly 28
bytes. -/
theorem signedFooter_verify_c4
    (signedFooterEncrypt : List Nat → List Nat → List Nat)
    (serialized_footer tail : List Nat) (metadata_len read_metadata_len : Nat)
    (htail : tail.length = 28) :
    (FileMetaData.verify signedFooterEncrypt serialized_footer tail = true ↔
      listLastN 16 (signedFooterEncrypt serialized_footer (tail.take 12)) =
        tail.drop 12) ∧
    (metadata_len - read_metadata_len ≠ 28 →
      parseSignedPlaintextFooterCheck signedFooterEncrypt true
          serialized_footer metadata_len read_metadata_len tail =
        .error "Invalid parquet file. Cannot verify plaintext mode footer.") := by
  constructor
  · have hdrop : (tail.drop 12).take 16 = tail.drop 12 := by
      apply List.take_of_length_le
      simp [htail]
    unfold FileMetaData.verify listLastN
    rw [hdrop]
    exact decide_eq_true_iff
  · intro hne
    unfold parseSignedPlaintextFooterCheck
    simp [hne]

/-- C4 witness: a trailer of 28 zero bytes and a truncated-by-one
Thrift block (trailer length 29) at a concrete encryption function. -/
theorem signedFooter_verify_c4_witness :
    (List.replicate 28 0 : List Nat).length = 28 ∧
    ((FileMetaData.verify (fun p _ => p) [1, 2] (List.replicate 28 0) = true ↔
       listLastN 16 ((fun (p : List Nat) (_ : List Nat) => p) [1, 2]
           ((List.replicate 28 0 : List Nat).take 12)) =
         (List.replicate 28 0 : List Nat).drop 12) ∧
     (30 - 1 ≠ 28 →
       parseSignedPlaintextFooterCheck (fun p _ => p) true [1, 2] 30 1
           (List.replicate 28 0) =
         .error "Invalid parquet file. Cannot verify plaintext mode footer.")) :=
  ⟨rfl, signedFooter_verify_c4 (fun p _ => p) [1, 2] (List.replicate 28 0) 30 1 rfl⟩

/-- C5: a `KeyAccessDenied` failure while retrieving a column-specific
key becomes a `HiddenColumn` error at the column-chunk boundary, while
the same failure while retrieving the footer key propagates as a
top-level `ParquetException`; the two error kinds are distinct. -/
theorem keyAccessDenied_column_vs_footer
    (key_retriever : String → Except KeyRetrievalError String)
    (column_path key_metadata msg : String)
    (hmd : key_metadata ≠ "")
    (hdenied : key_retriever key_metadata = .error (.keyAccessDenied msg)) :
    getColumnKeyForRead none column_path "" key_metadata (some key_retriever) =
      .error (.hiddenColumn
        ("HiddenColumnException, path=" ++ column_path ++ " " ++ msg ++ "\n")) ∧
    getFooterKeyForRead "" key_metadata (some key_retriever) =
      .error (.parquetError ("Footer key: access denied " ++ msg ++ "\n")) ∧
    (∀ m1 m2, ReaderError.hiddenColumn m1 ≠ ReaderError.parquetError m2) := by
  refine ⟨?_, ?_, fun m1 m2 => by intro hcon; cases hcon⟩
  · unfold getColumnKeyForRead
    simp [hmd, hdenied]
  · unfold getFooterKeyForRead
    simp [hmd, hdenied]

/-- C5 witness: a retriever that always denies access. -/
theorem keyAccessDenied_column_vs_footer_witness :
    ("md" : String) ≠ "" ∧
    ((fun _ : String =>
        (.error (.keyAccessDenied "no access") : Except KeyRetrievalError String))
      "md" = .error (.keyAccessDenied "no access")) ∧
    (getColumnKeyForRead none "a.b" "" "md"
        (some (fun _ => .error (.keyAccessDenied "no access"))) =
      .error (.hiddenColumn
        ("HiddenColumnException, path=" ++ "a.b" ++ " " ++ "no access" ++ "\n")) ∧
     getFooterKeyForRead "" "md"
        (some (fun _ => .error (.keyAccessDenied "no access"))) =
      .error (.parquetError ("Footer key: access denied " ++ "no access" ++ "\n")) ∧
     (∀ m1 m2, ReaderError.hiddenColumn m1 ≠ ReaderError.parquetError m2)) :=
  ⟨by decide, rfl,
   keyAccessDenied_column_vs_footer
     (fun _ => .error (.keyAccessDenied "no access")) "a.b" "md" "no access"
     (by decide) rfl⟩

/-- C7: 16-, 24- and 32-byte keys (128/192/256 bits) are the only
accepted lengths: `GetFileEncryptionProperties` errors on any other
`data_key_length_bits` (for a configuration that passes the earlier
checks), and `GetMetaAesEncryptor` / `GetDataAesEncryptor` throw on any
other key byte length while succeeding on 16, 24 and 32. -/
theorem key_length_validation (encryption_config : EncryptionConfiguration)
    (st : InternalFileEncryptor) (algorithm : ParquetCipher) (key_size : Nat)
    (huniform : encryption_config.uniform_encryption = true)
    (hcols : encryption_config.column_keys = "")
    (hinternal : encryption_config.internal_key_material = true)
    (hbits : encryption_config.data_key_length_bits ≠ 128 ∧
      encryption_config.data_key_length_bits ≠ 192 ∧
      encryption_config.data_key_length_bits ≠ 256)
    (hsize : key_size ≠ 16 ∧ key_size ≠ 24 ∧ key_size ≠ 32) :
    getFileEncryptionProperties encryption_config =
      .error ("Wrong data key length : "
        ++ toString encryption_config.data_key_length_bits) ∧
    getMetaAesEncryptor st algorithm key_size =
      .error "encryption key must be 16, 24 or 32 bytes in length" ∧
    getDataAesEncryptor st algorithm key_size =
      .error "encryption key must be 16, 24 or 32 bytes in length" ∧
    (∀ n, n = 16 ∨ n = 24 ∨ n = 32 →
      (getMetaAesEncryptor st algorithm n).isOk = true ∧
      (getDataAesEncryptor st algorithm n).isOk = true) := by
  obtain ⟨hb1, hb2, hb3⟩ := hbits
  obtain ⟨hs1, hs2, hs3⟩ := hsize
  refine ⟨?_, ?_, ?_, ?_⟩
  · unfold getFileEncryptionProperties
    simp [huniform, hcols, hinternal, ValidateKeyLength, hb1, hb2, hb3]
  · unfold getMetaAesEncryptor
    simp [hs1, hs2, hs3]
  · unfold getDataAesEncryptor
    simp [hs1, hs2, hs3]
  · rintro n (rfl | rfl | rfl)
    · exact ⟨by cases h : st.meta_encryptor_128 <;>
               simp [getMetaAesEncryptor, h, Except.isOk, Except.toBool],
             by cases h : st.data_encryptor_128 <;>
               simp [getDataAesEncryptor, h, Except.isOk, Except.toBool]⟩
    · exact ⟨by cases h : st.meta_encryptor_196 <;>
               simp [getMetaAesEncryptor, h, Except.isOk, Except.toBool],
             by cases h : st.data_encryptor_196 <;>
               simp [getDataAesEncryptor, h, Except.isOk, Except.toBool]⟩
    · exact ⟨by cases h : st.meta_encryptor_256 <;>
               simp [getMetaAesEncryptor, h, Except.isOk, Except.toBool],
             by cases h : st.data_encryptor_256 <;>
               simp [getDataAesEncryptor, h, Except.isOk, Except.toBool]⟩

/-- C7 witness: a uniform configuration with 120-bit data keys and a
15-byte encryptor request. -/
theorem key_length_validation_witness :
    (getFileEncryptionProperties
        { footer_key := "kf", column_keys := "",
          encryption_algorithm := .AES_GCM_V1, plaintext_footer := false,
          double_wrapping := true, cache_lifetime_seconds := 600,
          internal_key_material := true, uniform_encryption := true,
          data_key_length_bits := 120 } =
      .error ("Wrong data key length : " ++ toString (120 : Int))) ∧
    (getMetaAesEncryptor {} .AES_GCM_V1 15 =
      .error "encryption key must be 16, 24 or 32 bytes in length") ∧
    (getDataAesEncryptor {} .AES_GCM_V1 15 =
      .error "encryption key must be 16, 24 or 32 bytes in length") ∧
    (∀ n, n = 16 ∨ n = 24 ∨ n = 32 →
      (getMetaAesEncryptor {} .AES_GCM_V1 n).isOk = true ∧
      (getDataAesEncryptor {} .AES_GCM_V1 n).isOk = true) :=
  key_length_validation
    { footer_key := "kf", column_keys := "",
      encryption_algorithm := .AES_GCM_V1, plaintext_footer := false,
      double_wrapping := true, cache_lifetime_seconds := 600,
      internal_key_material := true, uniform_encryption := true,
      data_key_length_bits := 120 } {} .AES_GCM_V1 15
    rfl rfl rfl (by decide) (by decide)

/-- C8 (code-bug evidence): with an encrypted footer and a column-key
encrypted chunk, the writer emits `encrypted_column_metadata` but still
marks `meta_data` as set (serializing a default-constructed
`ColumnMetaData`) instead of omitting it; with a plaintext footer it
populates the redacted `meta_data` with statistics and encoding stats
stripped. -/
theorem columnChunk_meta_data_not_omitted :
    (columnChunkWriteTo ⟨true, true, 7⟩ true false true "km" ["a"]
        (fun _ => [9]) =
      { isset_meta_data := true, meta_data := defaultColumnMetaData,
        crypto_metadata := some (.encryptionWithColumnKey "km" ["a"]),
        encrypted_column_metadata := some [9] }) ∧
    ((columnChunkWriteTo ⟨true, true, 7⟩ true false true "km" ["a"]
        (fun _ => [9])).isset_meta_data ≠ false) ∧
    (columnChunkWriteTo ⟨true, true, 7⟩ true false false "km" ["a"]
        (fun _ => [9]) =
      { isset_meta_data := true,
        meta_data := { isset_statistics := false, isset_encoding_stats := false,
                       core := 7 },
        crypto_metadata := some (.encryptionWithColumnKey "km" ["a"]),
        encrypted_column_metadata := some [9] }) :=
  ⟨rfl, by decide, rfl⟩

/-- C6: parsing `column_keys` fails when a column name appears under
more than one key (the declared trimmed column names are not
duplicate-free), when a key name or a column name is empty after
trimming, or when `column_keys` is empty while `uniform_encryption` is
false; setting both `column_keys` and `uniform_encryption` is also an
error. -/
theorem column_keys_config_errors
    (encryption_config : EncryptionConfiguration) (column_keys : String) :
    (encryption_config.uniform_encryption = false →
      encryption_config.column_keys = "" →
      getFileEncryptionProperties encryption_config =
        .error "Either column_keys or uniform_encryption must be set") ∧
    (encryption_config.uniform_encryption = true →
      encryption_config.column_keys ≠ "" →
      getFileEncryptionProperties encryption_config =
        .error "Cannot set both column_keys and uniform_encryption") ∧
    (¬ (declaredColumns (SplitString column_keys ';')).Nodup →
      ∃ e, getColumnEncryptionProperties column_keys = .error e) ∧
    ((∃ seg ∈ SplitString column_keys ';', TrimString seg ≠ "" ∧
        segmentHasEmptyName seg = true) →
      ∃ e, getColumnEncryptionProperties column_keys = .error e) := by
  refine ⟨?_, ?_, ?_, ?_⟩
  · intro hu hc
    unfold getFileEncryptionProperties
    simp [hu, hc]
  · intro hu hc
    unfold getFileEncryptionProperties
    simp [hu, hc]
  · intro hdup
    cases hres : getColumnEncryptionProperties column_keys with
    | error e => exact ⟨e, rfl⟩
    | ok cols =>
        exfalso
        unfold getColumnEncryptionProperties at hres
        cases hpk : processKeyToColumns (SplitString column_keys ';') [] with
        | error e =>
            rw [hpk] at hres
            cases hres
        | ok cols2 =>
            obtain ⟨_, hb, hc⟩ := processKeyToColumns_ok hpk
            apply hdup
            have hnd := hc (by simp)
            rw [hb] at hnd
            simpa using hnd
  · intro hempty
    cases hres : getColumnEncryptionProperties column_keys with
    | error e => exact ⟨e, rfl⟩
    | ok cols =>
        exfalso
        unfold getColumnEncryptionProperties at hres
        cases hpk : processKeyToColumns (SplitString column_keys ';') [] with
        | error e =>
            rw [hpk] at hres
            cases hres
        | ok cols2 =>
            obtain ⟨ha, _, _⟩ := processKeyToColumns_ok hpk
            obtain ⟨seg, hseg, hne, hbad⟩ := hempty
            obtain ⟨p0, p1, hsplit, hk, hnames⟩ := ha seg hseg hne
            unfold segmentHasEmptyName at hbad
            rw [hsplit] at hbad
            dsimp only at hbad
            rcases Bool.or_eq_true_iff.mp hbad with hbad | hbad
            · exact hk (by simpa using hbad)
            · obtain ⟨n, hn, hn2⟩ := List.any_eq_true.mp hbad
              exact hnames n hn (by simpa using hn2)

/-- C6 witness: both-set and neither-set configurations, and a
`column_keys` string with a duplicated column and an empty column
name. -/
theorem column_keys_config_errors_witness :
    (getFileEncryptionProperties
        { footer_key := "kf", column_keys := "",
          encryption_algorithm := .AES_GCM_V1, plaintext_footer := false,
          double_wrapping := true, cache_lifetime_seconds := 600,
          internal_key_material := true, uniform_encryption := false,
          data_key_length_bits := 128 } =
      .error "Either column_keys or uniform_encryption must be set") ∧
    (getFileEncryptionProperties
        { footer_key := "kf", column_keys := "k1: a",
          encryption_algorithm := .AES_GCM_V1, plaintext_footer := false,
          double_wrapping := true, cache_lifetime_seconds := 600,
          internal_key_material := true, uniform_encryption := true,
          data_key_length_bits := 128 } =
      .error "Cannot set both column_keys and uniform_encryption") ∧
    (¬ (declaredColumns (SplitString "k1: a; k2: a,," ';')).Nodup) ∧
    (∃ e, getColumnEncryptionProperties "k1: a; k2: a,," = .error e) ∧
    (∃ seg ∈ SplitString "k1: a; k2: a,," ';', TrimString seg ≠ "" ∧
      segmentHasEmptyName seg = true) :=
  ⟨(column_keys_config_errors
      { footer_key := "kf", column_keys := "",
        encryption_algorithm := .AES_GCM_V1, plaintext_footer := false,
        double_wrapping := true, cache_lifetime_seconds := 600,
        internal_key_material := true, uniform_encryption := false,
        data_key_length_bits := 128 } "x").1 rfl rfl,
   (column_keys_config_errors
      { footer_key := "kf", column_keys := "k1: a",
        encryption_algorithm := .AES_GCM_V1, plaintext_footer := false,
        double_wrapping := true, cache_lifetime_seconds := 600,
        internal_key_material := true, uniform_encryption := true,
        data_key_length_bits := 128 } "x").2.1 rfl (by decide),
   by decide,
   (column_keys_config_errors
      { footer_key := "kf", column_keys := "",
        encryption_algorithm := .AES_GCM_V1, plaintext_footer := false,
        double_wrapping := true, cache_lifetime_seconds := 600,
        internal_key_material := true, uniform_encryption := false,
        data_key_length_bits := 128 } "k1: a; k2: a,,").2.2.1 (by decide),
   by decide⟩

/-- C9: empty segments between ';' separators in `column_keys` are
silently skipped - processing a segment list equals processing it with
the empty-after-trim segments removed - and a concrete string with a
doubled ';' parses its remaining mappings without error. -/
theorem empty_segments_skipped (column_keys : String) :
    processKeyToColumns (SplitString column_keys ';') [] =
      processKeyToColumns
        ((SplitString column_keys ';').filter
          (fun seg => !(TrimString seg == ""))) [] ∧
    getColumnEncryptionProperties "k1: a;; k2 : b" =
      .ok [("a", "k1"), ("b", "k2")] :=
  ⟨processKeyToColumns_filter _ _, rfl⟩

end ParquetSpec
